import Mathlib

/-!
Shallow embedding of the Setup Coach recommendation engine from
`src/pages/2_Setup_Coach.py` (ShearerPNW Easy Tuner).

Modelling conventions:
* Python floats are modelled as `ℚ`; temperatures (Streamlit integer
  number inputs) as `ℤ`; severities (integer slider 0–10) as `ℕ`.
* A suggestion string built by `mk_delta` always has the shape
  `f"{name}: {sign}{delta:g}{units}"`, where every parameter name used by
  the rule tables is ASCII and contains no digit.  Hence
  `txt.split(":",1)[0]` recovers the name and the first decimal number the
  regex `([+-]?\d+(\.\d+)?)` finds in the string is the delta.  We model a
  suggestion string by the structured record `Line` of its three parts;
  the string transformations of the source act on exactly one component
  each (`scale_one` rewrites the number, the side-swap rewrites the name).
* The repository ships no `ShearerPNW_Easy_Tuner_Editables/*.json` files,
  so `setup_rules.get(...)` falls back to the hardcoded defaults for
  `ALLOWED` and `LIM`; those defaults are embedded as constants.
* Python `round` is round-half-to-even; embedded as `pyRound`.
* Python `str.lower`/`str.upper` agree with ASCII case mapping on all the
  ASCII strings the engine handles; embedded as `lowerStr`/`upperStr`.
* A run that raises an uncaught Python exception is modelled by
  `Except.error` carrying the exception text.
-/

namespace SetupCoach

/-- One suggestion string `f"{name}: {sign}{delta:g}{units}"`, represented
by its parameter name, numeric delta and units suffix. -/
structure Line where
  name : String
  delta : ℚ
  units : String
deriving DecidableEq, Repr

/-- The four-category suggestion dictionary
`{"tires": [], "chassis": [], "suspension": [], "rear_end": []}`. -/
structure SuggDict where
  tires : List Line
  chassis : List Line
  suspension : List Line
  rear_end : List Line
deriving DecidableEq, Repr

/-- The four category keys of a suggestion dictionary. -/
inductive Cat
  | tires
  | chassis
  | suspension
  | rear_end
deriving DecidableEq, Repr

def SuggDict.get (s : SuggDict) : Cat → List Line
  | .tires => s.tires
  | .chassis => s.chassis
  | .suspension => s.suspension
  | .rear_end => s.rear_end

def emptySugg : SuggDict := ⟨[], [], [], []⟩

/-- Pointwise list concatenation of two suggestion dictionaries;
`agg[k].extend(s[k])` for the four keys. -/
def SuggDict.append (a b : SuggDict) : SuggDict :=
  ⟨a.tires ++ b.tires, a.chassis ++ b.chassis,
   a.suspension ++ b.suspension, a.rear_end ++ b.rear_end⟩

/-- The allowed-parameter registry (per-category whitelists). -/
structure Allowed where
  tires : List String
  suspension : List String
  chassis : List String
  rear_end : List String

def Allowed.get (a : Allowed) : Cat → List String
  | .tires => a.tires
  | .chassis => a.chassis
  | .suspension => a.suspension
  | .rear_end => a.rear_end

/-- `ALLOWED` fallback value from the source (no `setup_rules.json` ships
with the repository, so the `.get` default is used). -/
def ALLOWED : Allowed :=
  { tires := ["LF_pressure", "RF_pressure", "LR_pressure", "RR_pressure"]
    suspension :=
      ["LF_shock_rebound_clicks", "RF_shock_rebound_clicks",
       "LR_shock_rebound_clicks", "RR_shock_rebound_clicks",
       "LF_shock_bump_clicks", "RF_shock_bump_clicks",
       "LR_shock_bump_clicks", "RR_shock_bump_clicks",
       "front_swaybar_stiffness", "rear_swaybar_stiffness",
       "front_spring_rate", "rear_spring_rate"]
    chassis :=
      ["crossweight_percent", "front_ride_height_in",
       "rear_ride_height_in", "rear_trackbar_in"]
    rear_end := ["diff_preload_ftlbs", "gear_note"] }

/-- `LIM["pressure"]["increments_psig"]` fallback. -/
def psi_step : ℚ := 1/2
/-- `LIM["shock_clicks"]["increments"]` fallback. -/
def shock_step : ℚ := 1
/-- `LIM["spring_rate"]["increments"]` fallback. -/
def spring_step : ℚ := 25
/-- `LIM["ride_height"]["increments"]` fallback. -/
def ride_step : ℚ := 1/20
/-- `LIM["crossweight"]["increments"]` fallback. -/
def xwt_step : ℚ := 1/10
/-- `LIM["trackbar"]["increments"]` fallback. -/
def trackbar_step : ℚ := 1/4
/-- `LIM["diff_preload"]["increments"]` fallback. -/
def diff_step : ℚ := 5

/-- ASCII lower-casing of one character (what Python `str.lower` does on
the ASCII strings this engine handles). -/
def asciiLower (c : Char) : Char :=
  if 'A' ≤ c ∧ c ≤ 'Z' then Char.ofNat (c.toNat + 32) else c

/-- ASCII upper-casing of one character. -/
def asciiUpper (c : Char) : Char :=
  if 'a' ≤ c ∧ c ≤ 'z' then Char.ofNat (c.toNat - 32) else c

def lowerStr (s : String) : String := ⟨s.data.map asciiLower⟩

def upperStr (s : String) : String := ⟨s.data.map asciiUpper⟩

/-- Substring occurrence test on character lists (Python `needle in hay`). -/
def listContainsSub (needle : List Char) : List Char → Bool
  | [] => needle.isEmpty
  | c :: cs => needle.isPrefixOf (c :: cs) || listContainsSub needle cs

/-- Python `needle in hay` on strings. -/
def containsSub (hay needle : String) : Bool :=
  listContainsSub needle.data hay.data

/-- `sev_bucket` (line 53): map a 0–10 severity to a tier label. -/
def sev_bucket (n : ℕ) : String :=
  if n ≤ 3 then "slight" else if n ≤ 7 then "moderate" else "severe"

/-- `mk_delta` (lines 56–58): build the suggestion string
`f"{name}: {sign}{delta:g}{units}"`, modelled structurally. -/
def mk_delta (name : String) (delta : ℚ) (units : String) : Line :=
  ⟨name, delta, units⟩

/-- `bank_factor` (lines 83–87). -/
def bank_factor (bank_deg : ℚ) : ℚ :=
  if bank_deg ≤ 4 then 5/4 else if bank_deg ≤ 12 then 1 else 4/5

/-- `angle_factor` (lines 89–93). -/
def angle_factor (angle_deg : ℚ) : ℚ :=
  if angle_deg ≥ 120 then 5/4 else if angle_deg ≥ 60 then 1 else 17/20

/-- `step_for_param` (lines 97–106), the increment used for snapping. -/
def step_for_param (pname : String) : ℚ :=
  let p := lowerStr pname
  if containsSub p "pressure" then psi_step
  else if containsSub p "shock" && containsSub p "click" then shock_step
  else if containsSub p "spring_rate" then spring_step
  else if containsSub p "crossweight" then xwt_step
  else if containsSub p "trackbar" then trackbar_step
  else if containsSub p "ride_height" then ride_step
  else if containsSub p "diff_preload" then diff_step
  else 1

/-- Python `round`: round half to even. -/
def pyRound (q : ℚ) : ℤ :=
  let f := ⌊q⌋
  if q - f < 1/2 then f
  else if 1/2 < q - f then f + 1
  else if f % 2 = 0 then f else f + 1

/-- `scale_one` inside `scale_deltas_in_strings` (lines 108–122): multiply
the numeric delta found in the suggestion string by `factor` and snap it
to the parameter's step.  (`txt.split(":",1)[0]` is the parameter name,
the first number found by the regex is the delta.) -/
def scale_one (factor : ℚ) (ln : Line) : Line :=
  let step := step_for_param ln.name
  let val := ln.delta * factor
  let snapped := (pyRound (val / step) : ℚ) * step
  ⟨ln.name, snapped, ln.units⟩

/-- `scale_deltas_in_strings` (lines 95–124). -/
def scale_deltas_in_strings (s : SuggDict) (factor : ℚ) : SuggDict :=
  ⟨s.tires.map (scale_one factor), s.chassis.map (scale_one factor),
   s.suspension.map (scale_one factor), s.rear_end.map (scale_one factor)⟩

/-- Python `str.replace`: replace every non-overlapping occurrence left
to right.  Fueled structural recursion (fuel ≥ hay length suffices). -/
def replaceAux (needle repl : List Char) : ℕ → List Char → List Char
  | _, [] => []
  | 0, l => l
  | fuel + 1, c :: cs =>
    if needle ≠ [] ∧ needle.isPrefixOf (c :: cs) then
      repl ++ replaceAux needle repl fuel ((c :: cs).drop needle.length)
    else
      c :: replaceAux needle repl fuel cs

def strReplace (s pat rep : String) : String :=
  ⟨replaceAux pat.data rep.data s.data.length s.data⟩

/-- `swap_one`, the inner function of `mirror_sides` (lines 128–135):
swap `LF_` with `RF_` and `LR_` with `RR_` inside one suggestion string.
It is defined by the source but never reached, because `mirror_sides`
returns before using it (see `mirror_sides`). -/
def swap_one (txt : String) : String :=
  let t1 := strReplace txt "LF_" "__TMP_F__"
  let t2 := strReplace t1 "RF_" "LF_"
  let t3 := strReplace t2 "__TMP_F__" "RF_"
  let t4 := strReplace t3 "LR_" "__TMP_R__"
  let t5 := strReplace t4 "RR_" "LR_"
  strReplace t5 "__TMP_R__" "RR_"

/-- `mirror_sides` (lines 126–136).  In the source the line
`return {k: [swap_one(x) for x in v] for k, v in suggestions_dict.items()}`
is indented inside `swap_one` after `swap_one`'s own `return txt`, so it
is unreachable; `mirror_sides` itself has no `return` statement and every
call returns Python `None`, modelled as `none`. -/
def mirror_sides (_suggestions_dict : SuggDict) : Option SuggDict := none

/-- `temp_scale_from_diff` (lines 190–195). -/
def temp_scale_from_diff (diff : ℤ) : ℕ :=
  if diff.natAbs ≤ 5 then 0
  else if diff.natAbs ≤ 10 then 1
  else if diff.natAbs ≤ 20 then 2
  else 3

/-- The one-element list `[ln]` when `cond` holds, else `[]`; models a
guarded `out[cat].append(...)`. -/
def guard1 (cond : Bool) (ln : Line) : List Line :=
  if cond then [ln] else []

/-- `suggest_for_temp` (lines 197–234). -/
def suggest_for_temp (baseline current : ℤ) : SuggDict × ℤ × ℕ :=
  let diff := current - baseline
  let scale := temp_scale_from_diff diff
  if scale = 0 then (emptySugg, diff, scale)
  else
    let q : ℚ := scale
    let hotter : Bool := decide (0 < diff)
    let tdelta : ℚ := if hotter then -psi_step * q else psi_step * q
    let sdelta : ℚ := if hotter then shock_step * q else -shock_step * q
    let tires :=
      guard1 (ALLOWED.tires.contains "LF_pressure") (mk_delta "LF_pressure" tdelta " psi") ++
      guard1 (ALLOWED.tires.contains "RF_pressure") (mk_delta "RF_pressure" tdelta " psi") ++
      guard1 (ALLOWED.tires.contains "LR_pressure") (mk_delta "LR_pressure" tdelta " psi") ++
      guard1 (ALLOWED.tires.contains "RR_pressure") (mk_delta "RR_pressure" tdelta " psi")
    let suspension :=
      guard1 (ALLOWED.suspension.contains "LF_shock_bump_clicks")
        (mk_delta "LF_shock_bump_clicks" sdelta " clicks") ++
      guard1 (ALLOWED.suspension.contains "RF_shock_bump_clicks")
        (mk_delta "RF_shock_bump_clicks" sdelta " clicks") ++
      guard1 (ALLOWED.suspension.contains "LR_shock_bump_clicks")
        (mk_delta "LR_shock_bump_clicks" sdelta " clicks") ++
      guard1 (ALLOWED.suspension.contains "RR_shock_bump_clicks")
        (mk_delta "RR_shock_bump_clicks" sdelta " clicks") ++
      (if hotter then
        guard1 (ALLOWED.suspension.contains "rear_spring_rate")
          (mk_delta "rear_spring_rate" (spring_step * q) " lb/in")
       else [])
    let chassis :=
      if hotter then []
      else
        guard1 (ALLOWED.chassis.contains "rear_ride_height_in")
          (mk_delta "rear_ride_height_in" (ride_step * q) " in")
    let rearEnd :=
      if hotter then
        guard1 (ALLOWED.rear_end.contains "diff_preload_ftlbs")
          (mk_delta "diff_preload_ftlbs" (diff_step * q) " ft-lbs")
      else
        guard1 (ALLOWED.rear_end.contains "diff_preload_ftlbs")
          (mk_delta "diff_preload_ftlbs" (-diff_step * q) " ft-lbs")
    (⟨tires, chassis, suspension, rearEnd⟩, diff, scale)

/-- The severity-label lookup `{"slight": 1, "moderate": 2, "severe": 3}[sev]`
inside `suggest_for_symptom` (line 239).  In the source an unknown label
raises `KeyError`; `compute` only ever passes outputs of `sev_bucket`, on
which the lookup never misses, so the fallback branch is unreachable
there. -/
def sev_scale (sev : String) : ℕ :=
  if sev = "slight" then 1 else if sev = "moderate" then 2
  else if sev = "severe" then 3 else 0

/-- `suggest_for_symptom` (lines 237–296).  The global `ALLOWED` the source
closes over is passed as the explicit argument `allowed`; within each of
the four category lists the lines appear in the source's rule order. -/
def suggest_for_symptom (allowed : Allowed) (feel : String) (sev : String) : SuggDict :=
  let scale : ℚ := sev_scale sev
  let f := lowerStr feel
  let looseEntry := containsSub f "loose on entry"
  let looseMid := containsSub f "loose mid-corner"
  let looseExit := containsSub f "loose on exit"
  let tightEntry := containsSub f "tight on entry"
  let tightMid := containsSub f "tight mid-corner"
  let tightExit := containsSub f "tight on exit"
  let brakes := containsSub f "brakes locking"
  let traction := containsSub f "traction wheelspin"
  let porpoise := containsSub f "porpoising" || containsSub f "bottoming"
  let tires :=
    (if looseEntry then
      guard1 (allowed.tires.contains "LF_pressure") (mk_delta "LF_pressure" (-psi_step * scale) " psi") ++
      guard1 (allowed.tires.contains "RR_pressure") (mk_delta "RR_pressure" (-psi_step * scale) " psi")
     else []) ++
    (if looseMid then
      guard1 (allowed.tires.contains "RR_pressure") (mk_delta "RR_pressure" (-psi_step * scale) " psi")
     else []) ++
    (if looseExit then
      guard1 (allowed.tires.contains "RR_pressure") (mk_delta "RR_pressure" (-psi_step * scale) " psi")
     else []) ++
    (if tightEntry then
      guard1 (allowed.tires.contains "RF_pressure") (mk_delta "RF_pressure" (-psi_step * scale) " psi")
     else []) ++
    (if tightMid then
      guard1 (allowed.tires.contains "LF_pressure") (mk_delta "LF_pressure" (-psi_step * scale) " psi")
     else []) ++
    (if tightExit then
      guard1 (allowed.tires.contains "RR_pressure") (mk_delta "RR_pressure" (psi_step * scale) " psi")
     else []) ++
    (if brakes then
      guard1 (allowed.tires.contains "RF_pressure") (mk_delta "RF_pressure" (-psi_step * scale) " psi")
     else []) ++
    (if traction then
      guard1 (allowed.tires.contains "RR_pressure") (mk_delta "RR_pressure" (-psi_step * scale) " psi")
     else [])
  let chassis :=
    (if looseEntry then
      guard1 (allowed.chassis.contains "rear_trackbar_in") (mk_delta "rear_trackbar_in" (-trackbar_step * scale) " in") ++
      guard1 (allowed.chassis.contains "crossweight_percent") (mk_delta "crossweight_percent" (xwt_step * scale) " %")
     else []) ++
    (if looseExit then
      guard1 (allowed.chassis.contains "rear_trackbar_in") (mk_delta "rear_trackbar_in" (-trackbar_step * scale) " in")
     else []) ++
    (if tightEntry then
      guard1 (allowed.chassis.contains "crossweight_percent") (mk_delta "crossweight_percent" (-xwt_step * scale) " %") ++
      guard1 (allowed.chassis.contains "rear_trackbar_in") (mk_delta "rear_trackbar_in" (trackbar_step * scale) " in")
     else []) ++
    (if tightExit then
      guard1 (allowed.chassis.contains "rear_trackbar_in") (mk_delta "rear_trackbar_in" (trackbar_step * scale) " in")
     else []) ++
    (if porpoise then
      guard1 (allowed.chassis.contains "front_ride_height_in") (mk_delta "front_ride_height_in" (ride_step * scale) " in")
     else [])
  let suspension :=
    (if looseEntry then
      guard1 (allowed.suspension.contains "LF_shock_rebound_clicks") (mk_delta "LF_shock_rebound_clicks" (shock_step * scale) " clicks")
     else []) ++
    (if looseMid then
      guard1 (allowed.suspension.contains "rear_swaybar_stiffness") (mk_delta "rear_swaybar_stiffness" (-1 * scale) " step") ++
      guard1 (allowed.suspension.contains "front_swaybar_stiffness") (mk_delta "front_swaybar_stiffness" (1 * scale) " step") ++
      guard1 (allowed.suspension.contains "rear_spring_rate") (mk_delta "rear_spring_rate" (-spring_step * scale) " lb/in")
     else []) ++
    (if looseExit then
      guard1 (allowed.suspension.contains "RR_shock_rebound_clicks") (mk_delta "RR_shock_rebound_clicks" (-shock_step * scale) " clicks")
     else []) ++
    (if tightMid then
      guard1 (allowed.suspension.contains "front_swaybar_stiffness") (mk_delta "front_swaybar_stiffness" (-1 * scale) " step") ++
      guard1 (allowed.suspension.contains "rear_swaybar_stiffness") (mk_delta "rear_swaybar_stiffness" (1 * scale) " step") ++
      guard1 (allowed.suspension.contains "front_spring_rate") (mk_delta "front_spring_rate" (-spring_step * scale) " lb/in")
     else []) ++
    (if brakes then
      guard1 (allowed.suspension.contains "LF_shock_rebound_clicks") (mk_delta "LF_shock_rebound_clicks" (-shock_step * scale) " clicks")
     else []) ++
    (if traction then
      guard1 (allowed.suspension.contains "RR_shock_rebound_clicks") (mk_delta "RR_shock_rebound_clicks" (-shock_step * scale) " clicks")
     else []) ++
    (if porpoise then
      guard1 (allowed.suspension.contains "front_spring_rate") (mk_delta "front_spring_rate" (spring_step * scale) " lb/in") ++
      guard1 (allowed.suspension.contains "rear_spring_rate") (mk_delta "rear_spring_rate" (spring_step * scale) " lb/in")
     else [])
  let rearEnd :=
    (if looseExit then
      guard1 (allowed.rear_end.contains "diff_preload_ftlbs") (mk_delta "diff_preload_ftlbs" (diff_step * scale) " ft-lbs")
     else []) ++
    (if tightExit then
      guard1 (allowed.rear_end.contains "diff_preload_ftlbs") (mk_delta "diff_preload_ftlbs" (-diff_step * scale) " ft-lbs")
     else []) ++
    (if traction then
      guard1 (allowed.rear_end.contains "diff_preload_ftlbs") (mk_delta "diff_preload_ftlbs" (diff_step * scale) " ft-lbs")
     else [])
  ⟨tires, chassis, suspension, rearEnd⟩

/-- One corner with metadata, as produced by `corner_list_with_meta`
(lines 60–81): name, direction string, banking and corner angle with
defaults filled in. -/
structure CornerMeta where
  name : String
  dir : String
  bank_deg : ℚ
  angle_deg : ℚ
deriving DecidableEq, Repr

/-- One corner's feedback record
`{"feels": ..., "severity": ..., "note": ...}`. -/
structure Feedback where
  feels : String
  severity : ℕ
  note : String
deriving DecidableEq, Repr

/-- The default used by
`st.session_state.coach_feedback.get(corner, {"feels": "No issue / skip", "severity": 0})`. -/
def defaultFb : Feedback := ⟨"No issue / skip", 0, ""⟩

/-- Dictionary lookup with default (line 312). -/
def lookupFb (fbl : List (String × Feedback)) (c : String) : Feedback :=
  match fbl.find? (fun p => p.1 == c) with
  | some p => p.2
  | none => defaultFb

/-- The per-corner gate (line 315):
`feel != "No issue / skip" and fb["severity"] > 0`. -/
def cornerPass (fb : Feedback) : Bool :=
  (fb.feels != "No issue / skip") && decide (0 < fb.severity)

/-- `meta.get("dir","M").upper().startswith("R")` (line 319). -/
def dirIsR (d : String) : Bool :=
  "R".data.isPrefixOf (upperStr d).data

/-- One entry of the `per_corner` list (lines 321–323).  For a mirrored
corner the stored `suggestions` value is Python `None` (`mirror_sides`'
result), hence the `Option`. -/
structure PerCorner where
  corner : String
  feel : String
  severity : String
  note : String
  dir : String
  bank_deg : ℚ
  angle_deg : ℚ
  factor : ℚ
  suggestions : Option SuggDict
deriving DecidableEq, Repr

/-- The Python `TypeError` text raised by `agg[k].extend(s[k])` when `s`
is `None`. -/
def mirrorCrashMsg : String :=
  "TypeError: argument of type NoneType is not subscriptable"

/-- The per-corner loop of the compute step (lines 310–325).  For each
corner in order: look up feedback, apply the skip gate, build the symptom
suggestions, scale them by the bank/angle factor, and — for a right-hand
corner — replace them by `mirror_sides`' result, which is `None`; the
subsequent `agg[k].extend(s[k])` then raises `TypeError`, modelled by
`Except.error`.  Otherwise the corner record and its lines are appended. -/
def computeCorners (fbl : List (String × Feedback)) :
    List CornerMeta → List PerCorner → SuggDict →
    Except String (List PerCorner × SuggDict)
  | [], pcs, agg => .ok (pcs, agg)
  | meta :: rest, pcs, agg =>
    let fb := lookupFb fbl meta.name
    if cornerPass fb then
      let s0 := suggest_for_symptom ALLOWED fb.feels (sev_bucket fb.severity)
      let fac := bank_factor meta.bank_deg * angle_factor meta.angle_deg
      let s := scale_deltas_in_strings s0 fac
      if dirIsR meta.dir then
        .error mirrorCrashMsg
      else
        let pc : PerCorner :=
          ⟨meta.name, fb.feels, sev_bucket fb.severity, fb.note,
           meta.dir, meta.bank_deg, meta.angle_deg, fac, some s⟩
        computeCorners fbl rest (pcs ++ [pc]) (agg.append s)
    else
      computeCorners fbl rest pcs agg

/-- The computed plan (lines 365–374); the fields the claims are about. -/
structure Plan where
  baseline_temp_f : ℤ
  current_temp_f : ℤ
  temp_diff_f : ℤ
  corners_used : List PerCorner
  recommendations : SuggDict
deriving DecidableEq, Repr

/-- The compute step behind the "Compute Suggestions" button
(lines 300–325 and 365–374): one global temperature-compensation block,
then the per-corner loop extending the same four aggregation lists. -/
def compute (baseline_temp current_temp : ℤ) (corners_meta : List CornerMeta)
    (fbl : List (String × Feedback)) : Except String Plan :=
  let t := suggest_for_temp baseline_temp current_temp
  match computeCorners fbl corners_meta [] t.1 with
  | .error e => .error e
  | .ok (pcs, agg) =>
    .ok ⟨baseline_temp, current_temp, current_temp - baseline_temp, pcs, agg⟩

/-- Example run used by witnesses: one contributing left-hand corner. -/
def computeExL : Except String Plan :=
  compute 85 96 [⟨"T1", "L", 2, 150⟩] [("T1", ⟨"Loose on entry", 8, ""⟩)]

/-- The plan of the example run. -/
def planExL : Plan := (computeExL.toOption).getD ⟨0, 0, 0, [], emptySugg⟩

/-! ## Helper lemmas -/

@[simp] theorem SuggDict.get_append (a b : SuggDict) (cat : Cat) :
    (a.append b).get cat = a.get cat ++ b.get cat := by
  cases cat <;> rfl

@[simp] theorem SuggDict.get_empty (cat : Cat) : emptySugg.get cat = [] := by
  cases cat <;> rfl

@[simp] theorem get_scale_deltas (s : SuggDict) (factor : ℚ) (cat : Cat) :
    (scale_deltas_in_strings s factor).get cat = (s.get cat).map (scale_one factor) := by
  cases cat <;> rfl

theorem mem_guard1_iff {b : Bool} {ln x : Line} :
    x ∈ guard1 b ln ↔ b = true ∧ x = ln := by
  unfold guard1; split <;> simp_all

theorem mem_ite_nil_iff {p : Prop} [Decidable p] {l : List Line} {x : Line} :
    (x ∈ if p then l else []) ↔ p ∧ x ∈ l := by
  split <;> simp_all

theorem mem_of_contains {l : List String} {s : String}
    (h : l.contains s = true) : s ∈ l := by
  simpa using h

theorem planExL_ok : computeExL = Except.ok planExL := rfl

theorem pyRound_ge_one {q : ℚ} (h : 1/2 < q) : 1 ≤ pyRound q := by
  have hf : (⌊q⌋ : ℚ) ≤ q := Int.floor_le q
  simp only [pyRound]
  split
  · rename_i h1
    have h2 : (0 : ℚ) < (⌊q⌋ : ℚ) := by linarith
    have h3 : (0 : ℤ) < ⌊q⌋ := by exact_mod_cast h2
    omega
  · rename_i h1
    split
    · rename_i h2
      have h3 : (0 : ℚ) ≤ q := by linarith
      have h4 : (0 : ℤ) ≤ ⌊q⌋ := Int.floor_nonneg.mpr h3
      omega
    · rename_i h2
      have heq : (⌊q⌋ : ℚ) = q - 1/2 := by linarith
      have h3 : (0 : ℚ) < (⌊q⌋ : ℚ) := by linarith
      have h4 : (0 : ℤ) < ⌊q⌋ := by exact_mod_cast h3
      split <;> omega

theorem pyRound_le_neg_one {q : ℚ} (h : q < -(1/2)) : pyRound q ≤ -1 := by
  have hf : (⌊q⌋ : ℚ) ≤ q := Int.floor_le q
  simp only [pyRound]
  split
  · rename_i h1
    have h2 : (⌊q⌋ : ℚ) < 0 := by linarith
    have h3 : ⌊q⌋ < (0 : ℤ) := by exact_mod_cast h2
    omega
  · rename_i h1
    split
    · rename_i h2
      have h3 : (⌊q⌋ : ℚ) < -1 := by linarith
      have h4 : ⌊q⌋ < (-1 : ℤ) := by exact_mod_cast h3
      omega
    · rename_i h2
      have heq : (⌊q⌋ : ℚ) = q - 1/2 := by linarith
      have h3 : (⌊q⌋ : ℚ) < -1 := by linarith
      have h4 : ⌊q⌋ < (-1 : ℤ) := by exact_mod_cast h3
      split <;> omega

theorem bank_factor_cases (b : ℚ) :
    bank_factor b = 5/4 ∨ bank_factor b = 1 ∨ bank_factor b = 4/5 := by
  unfold bank_factor
  split
  · exact Or.inl rfl
  · split
    · exact Or.inr (Or.inl rfl)
    · exact Or.inr (Or.inr rfl)

theorem angle_factor_cases (a : ℚ) :
    angle_factor a = 5/4 ∨ angle_factor a = 1 ∨ angle_factor a = 17/20 := by
  unfold angle_factor
  split
  · exact Or.inl rfl
  · split
    · exact Or.inr (Or.inl rfl)
    · exact Or.inr (Or.inr rfl)

theorem factor_lb (b a : ℚ) : 17/25 ≤ bank_factor b * angle_factor a := by
  rcases bank_factor_cases b with h | h | h <;>
    rcases angle_factor_cases a with h2 | h2 | h2 <;> rw [h, h2] <;> norm_num

theorem factor_ub (b a : ℚ) : bank_factor b * angle_factor a ≤ 25/16 := by
  rcases bank_factor_cases b with h | h | h <;>
    rcases angle_factor_cases a with h2 | h2 | h2 <;> rw [h, h2] <;> norm_num

theorem factor_pos (b a : ℚ) : 0 < bank_factor b * angle_factor a := by
  have := factor_lb b a; linarith

theorem step_LF_pressure : step_for_param "LF_pressure" = psi_step := rfl
theorem step_RF_pressure : step_for_param "RF_pressure" = psi_step := rfl
theorem step_LR_pressure : step_for_param "LR_pressure" = psi_step := rfl
theorem step_RR_pressure : step_for_param "RR_pressure" = psi_step := rfl
theorem step_LF_rebound : step_for_param "LF_shock_rebound_clicks" = shock_step := rfl
theorem step_RR_rebound : step_for_param "RR_shock_rebound_clicks" = shock_step := rfl
theorem step_LF_bump : step_for_param "LF_shock_bump_clicks" = shock_step := rfl
theorem step_RF_bump : step_for_param "RF_shock_bump_clicks" = shock_step := rfl
theorem step_LR_bump : step_for_param "LR_shock_bump_clicks" = shock_step := rfl
theorem step_RR_bump : step_for_param "RR_shock_bump_clicks" = shock_step := rfl
theorem step_front_spring : step_for_param "front_spring_rate" = spring_step := rfl
theorem step_rear_spring : step_for_param "rear_spring_rate" = spring_step := rfl
theorem step_xwt : step_for_param "crossweight_percent" = xwt_step := rfl
theorem step_trackbar : step_for_param "rear_trackbar_in" = trackbar_step := rfl
theorem step_front_ride : step_for_param "front_ride_height_in" = ride_step := rfl
theorem step_rear_ride : step_for_param "rear_ride_height_in" = ride_step := rfl
theorem step_diff : step_for_param "diff_preload_ftlbs" = diff_step := rfl
theorem step_front_swaybar : step_for_param "front_swaybar_stiffness" = 1 := rfl
theorem step_rear_swaybar : step_for_param "rear_swaybar_stiffness" = 1 := rfl


theorem suggest_lines_tires (allowed : Allowed) (feel sev : String) :
    ∀ ln ∈ (suggest_for_symptom allowed feel sev).get Cat.tires,
      ln.name ∈ allowed.get Cat.tires ∧ 0 < step_for_param ln.name ∧
      (ln.delta = (sev_scale sev : ℚ) * step_for_param ln.name ∨
       ln.delta = -((sev_scale sev : ℚ) * step_for_param ln.name)) := by
  intro ln h
  simp only [suggest_for_symptom, SuggDict.get, Allowed.get, List.mem_append,
    mem_ite_nil_iff, mem_guard1_iff] at h
  rcases h with
    (((((((⟨-, ⟨hc, rfl⟩ | ⟨hc, rfl⟩⟩ | ⟨-, hc, rfl⟩) | ⟨-, hc, rfl⟩) | ⟨-, hc, rfl⟩) |
      ⟨-, hc, rfl⟩) | ⟨-, hc, rfl⟩) | ⟨-, hc, rfl⟩) | ⟨-, hc, rfl⟩)
  all_goals refine ⟨mem_of_contains hc, ?_, ?_⟩
  all_goals simp only [mk_delta, step_LF_pressure, step_RF_pressure, step_LR_pressure,
    step_RR_pressure]
  all_goals first
    | (left; ring1)
    | (right; ring1)
    | norm_num [psi_step]



theorem suggest_lines_chassis (allowed : Allowed) (feel sev : String) :
    ∀ ln ∈ (suggest_for_symptom allowed feel sev).get Cat.chassis,
      ln.name ∈ allowed.get Cat.chassis ∧ 0 < step_for_param ln.name ∧
      (ln.delta = (sev_scale sev : ℚ) * step_for_param ln.name ∨
       ln.delta = -((sev_scale sev : ℚ) * step_for_param ln.name)) := by
  intro ln h
  simp only [suggest_for_symptom, SuggDict.get, Allowed.get, List.mem_append,
    mem_ite_nil_iff, mem_guard1_iff] at h
  rcases h with
    ((((⟨-, ⟨hc, rfl⟩ | ⟨hc, rfl⟩⟩ | ⟨-, hc, rfl⟩) | ⟨-, ⟨hc, rfl⟩ | ⟨hc, rfl⟩⟩) |
      ⟨-, hc, rfl⟩) | ⟨-, hc, rfl⟩)
  all_goals refine ⟨mem_of_contains hc, ?_, ?_⟩
  all_goals simp only [mk_delta, step_trackbar, step_xwt, step_front_ride]
  all_goals first
    | (left; ring1)
    | (right; ring1)
    | norm_num [trackbar_step, xwt_step, ride_step]

theorem suggest_lines_suspension (allowed : Allowed) (feel sev : String) :
    ∀ ln ∈ (suggest_for_symptom allowed feel sev).get Cat.suspension,
      ln.name ∈ allowed.get Cat.suspension ∧ 0 < step_for_param ln.name ∧
      (ln.delta = (sev_scale sev : ℚ) * step_for_param ln.name ∨
       ln.delta = -((sev_scale sev : ℚ) * step_for_param ln.name)) := by
  intro ln h
  simp only [suggest_for_symptom, SuggDict.get, Allowed.get, List.mem_append,
    mem_ite_nil_iff, mem_guard1_iff] at h
  rcases h with
    ((((((⟨-, hc, rfl⟩ | ⟨-, (⟨hc, rfl⟩ | ⟨hc, rfl⟩) | ⟨hc, rfl⟩⟩) | ⟨-, hc, rfl⟩) |
      ⟨-, (⟨hc, rfl⟩ | ⟨hc, rfl⟩) | ⟨hc, rfl⟩⟩) | ⟨-, hc, rfl⟩) | ⟨-, hc, rfl⟩) |
      ⟨-, ⟨hc, rfl⟩ | ⟨hc, rfl⟩⟩)
  all_goals refine ⟨mem_of_contains hc, ?_, ?_⟩
  all_goals simp only [mk_delta, step_LF_rebound, step_RR_rebound, step_front_spring,
    step_rear_spring, step_front_swaybar, step_rear_swaybar]
  all_goals first
    | (left; ring1)
    | (right; ring1)
    | norm_num [shock_step, spring_step]

theorem suggest_lines_rear (allowed : Allowed) (feel sev : String) :
    ∀ ln ∈ (suggest_for_symptom allowed feel sev).get Cat.rear_end,
      ln.name ∈ allowed.get Cat.rear_end ∧ 0 < step_for_param ln.name ∧
      (ln.delta = (sev_scale sev : ℚ) * step_for_param ln.name ∨
       ln.delta = -((sev_scale sev : ℚ) * step_for_param ln.name)) := by
  intro ln h
  simp only [suggest_for_symptom, SuggDict.get, Allowed.get, List.mem_append,
    mem_ite_nil_iff, mem_guard1_iff] at h
  rcases h with (⟨-, hc, rfl⟩ | ⟨-, hc, rfl⟩) | ⟨-, hc, rfl⟩
  all_goals refine ⟨mem_of_contains hc, ?_, ?_⟩
  all_goals simp only [mk_delta, step_diff]
  all_goals first
    | (left; ring1)
    | (right; ring1)
    | norm_num [diff_step]

theorem suggest_lines (allowed : Allowed) (feel sev : String) (cat : Cat) :
    ∀ ln ∈ (suggest_for_symptom allowed feel sev).get cat,
      ln.name ∈ allowed.get cat ∧ 0 < step_for_param ln.name ∧
      (ln.delta = (sev_scale sev : ℚ) * step_for_param ln.name ∨
       ln.delta = -((sev_scale sev : ℚ) * step_for_param ln.name)) := by
  cases cat
  · exact suggest_lines_tires allowed feel sev
  · exact suggest_lines_chassis allowed feel sev
  · exact suggest_lines_suspension allowed feel sev
  · exact suggest_lines_rear allowed feel sev

theorem temp_lines (b c : ℤ) (cat : Cat) :
    ∀ ln ∈ ((suggest_for_temp b c).1).get cat,
      ln.name ∈ ALLOWED.get cat ∧ 0 < step_for_param ln.name ∧
      1 ≤ temp_scale_from_diff (c - b) ∧
      (ln.delta = (temp_scale_from_diff (c - b) : ℚ) * step_for_param ln.name ∨
       ln.delta = -((temp_scale_from_diff (c - b) : ℚ) * step_for_param ln.name)) := by
  intro ln h
  simp only [suggest_for_temp] at h
  by_cases h0 : temp_scale_from_diff (c - b) = 0
  · rw [if_pos h0] at h
    simp at h
  · rw [if_neg h0] at h
    have h1 : 1 ≤ temp_scale_from_diff (c - b) := Nat.one_le_iff_ne_zero.mpr h0
    cases hhot : decide ((0:ℤ) < c - b) <;> rw [hhot] at h <;>
      cases cat <;>
      simp only [SuggDict.get, Allowed.get, Bool.false_eq_true, if_false, if_true,
        List.append_nil, List.mem_append, mem_guard1_iff, List.not_mem_nil] at h
    · rcases h with ((⟨hc, rfl⟩ | ⟨hc, rfl⟩) | ⟨hc, rfl⟩) | ⟨hc, rfl⟩ <;>
        refine ⟨mem_of_contains hc, ?_, h1, ?_⟩ <;>
        simp only [mk_delta, step_LF_pressure, step_RF_pressure, step_LR_pressure,
          step_RR_pressure] <;>
        first
          | (left; ring1)
          | (right; ring1)
          | norm_num [psi_step]
    · rcases h with ⟨hc, rfl⟩
      refine ⟨mem_of_contains hc, ?_, h1, ?_⟩ <;>
        simp only [mk_delta, step_rear_ride] <;>
        first
          | (left; ring1)
          | (right; ring1)
          | norm_num [ride_step]
    · rcases h with ((⟨hc, rfl⟩ | ⟨hc, rfl⟩) | ⟨hc, rfl⟩) | ⟨hc, rfl⟩ <;>
        refine ⟨mem_of_contains hc, ?_, h1, ?_⟩ <;>
        simp only [mk_delta, step_LF_bump, step_RF_bump, step_LR_bump, step_RR_bump] <;>
        first
          | (left; ring1)
          | (right; ring1)
          | norm_num [shock_step]
    · rcases h with ⟨hc, rfl⟩
      refine ⟨mem_of_contains hc, ?_, h1, ?_⟩ <;>
        simp only [mk_delta, step_diff] <;>
        first
          | (left; ring1)
          | (right; ring1)
          | norm_num [diff_step]
    · rcases h with ((⟨hc, rfl⟩ | ⟨hc, rfl⟩) | ⟨hc, rfl⟩) | ⟨hc, rfl⟩ <;>
        refine ⟨mem_of_contains hc, ?_, h1, ?_⟩ <;>
        simp only [mk_delta, step_LF_pressure, step_RF_pressure, step_LR_pressure,
          step_RR_pressure] <;>
        first
          | (left; ring1)
          | (right; ring1)
          | norm_num [psi_step]
    · rcases h with (((⟨hc, rfl⟩ | ⟨hc, rfl⟩) | ⟨hc, rfl⟩) | ⟨hc, rfl⟩) | ⟨hc, rfl⟩ <;>
        refine ⟨mem_of_contains hc, ?_, h1, ?_⟩ <;>
        simp only [mk_delta, step_LF_bump, step_RF_bump, step_LR_bump, step_RR_bump,
          step_rear_spring] <;>
        first
          | (left; ring1)
          | (right; ring1)
          | norm_num [shock_step, spring_step]
    · rcases h with ⟨hc, rfl⟩
      refine ⟨mem_of_contains hc, ?_, h1, ?_⟩ <;>
        simp only [mk_delta, step_diff] <;>
        first
          | (left; ring1)
          | (right; ring1)
          | norm_num [diff_step]


theorem computeCorners_ok_elim (fbl : List (String × Feedback)) :
    ∀ (metas : List CornerMeta) (pcs : List PerCorner) (agg : SuggDict)
      {pcs2 : List PerCorner} {agg2 : SuggDict},
      computeCorners fbl metas pcs agg = Except.ok (pcs2, agg2) →
      ∃ newpcs : List PerCorner,
        pcs2 = pcs ++ newpcs ∧
        (∀ cat, agg2.get cat = agg.get cat ++
          (newpcs.map fun pc => ((pc.suggestions.getD emptySugg).get cat)).flatten) ∧
        (∀ pc ∈ newpcs, ∃ meta ∈ metas, pc.corner = meta.name ∧
          cornerPass (lookupFb fbl meta.name) = true ∧
          pc.suggestions = some (scale_deltas_in_strings
            (suggest_for_symptom ALLOWED (lookupFb fbl meta.name).feels
              (sev_bucket (lookupFb fbl meta.name).severity))
            (bank_factor meta.bank_deg * angle_factor meta.angle_deg))) ∧
        (∀ meta ∈ metas, cornerPass (lookupFb fbl meta.name) = true →
          ∃ pc ∈ newpcs, pc.corner = meta.name) := by
  intro metas
  induction metas with
  | nil =>
    intro pcs agg pcs2 agg2 h
    simp only [computeCorners, Except.ok.injEq, Prod.mk.injEq] at h
    obtain ⟨rfl, rfl⟩ := h
    exact ⟨[], by simp, by simp, by simp, by simp⟩
  | cons meta rest ih =>
    intro pcs agg pcs2 agg2 h
    simp only [computeCorners] at h
    by_cases hp : cornerPass (lookupFb fbl meta.name) = true
    · rw [if_pos hp] at h
      by_cases hr : dirIsR meta.dir = true
      · rw [if_pos hr] at h
        exact absurd h (by simp)
      · rw [if_neg hr] at h
        obtain ⟨newpcs, hpcs, hagg, hinfo, hcover⟩ := ih _ _ h
        refine ⟨⟨meta.name, (lookupFb fbl meta.name).feels,
          sev_bucket (lookupFb fbl meta.name).severity, (lookupFb fbl meta.name).note,
          meta.dir, meta.bank_deg, meta.angle_deg,
          bank_factor meta.bank_deg * angle_factor meta.angle_deg,
          some (scale_deltas_in_strings
            (suggest_for_symptom ALLOWED (lookupFb fbl meta.name).feels
              (sev_bucket (lookupFb fbl meta.name).severity))
            (bank_factor meta.bank_deg * angle_factor meta.angle_deg))⟩ :: newpcs,
          ?_, ?_, ?_, ?_⟩
        · simpa using hpcs
        · intro cat
          simp only [hagg cat, SuggDict.get_append, List.map_cons, List.flatten_cons,
            Option.getD_some, List.append_assoc]
        · intro pc hpc
          rcases List.mem_cons.1 hpc with rfl | hpc
          · exact ⟨meta, List.mem_cons_self _ _, rfl, hp, rfl⟩
          · obtain ⟨m, hm, h1, h2, h3⟩ := hinfo pc hpc
            exact ⟨m, List.mem_cons_of_mem _ hm, h1, h2, h3⟩
        · intro m hm hpass
          rcases List.mem_cons.1 hm with rfl | hm
          · exact ⟨_, List.mem_cons_self _ _, rfl⟩
          · obtain ⟨pc, hpc, hname⟩ := hcover m hm hpass
            exact ⟨pc, List.mem_cons_of_mem _ hpc, hname⟩
    · rw [if_neg hp] at h
      obtain ⟨newpcs, hpcs, hagg, hinfo, hcover⟩ := ih _ _ h
      refine ⟨newpcs, hpcs, hagg, ?_, ?_⟩
      · intro pc hpc
        obtain ⟨m, hm, h1, h2, h3⟩ := hinfo pc hpc
        exact ⟨m, List.mem_cons_of_mem _ hm, h1, h2, h3⟩
      · intro m hm hpass
        rcases List.mem_cons.1 hm with rfl | hm
        · exact absurd hpass hp
        · exact hcover m hm hpass


theorem compute_ok_elim (b c : ℤ) (corners : List CornerMeta)
    (fbl : List (String × Feedback)) {plan : Plan}
    (h : compute b c corners fbl = Except.ok plan) :
    (∀ cat, plan.recommendations.get cat = ((suggest_for_temp b c).1).get cat ++
      (plan.corners_used.map fun pc => ((pc.suggestions.getD emptySugg).get cat)).flatten) ∧
    (∀ pc ∈ plan.corners_used, ∃ meta ∈ corners, pc.corner = meta.name ∧
      cornerPass (lookupFb fbl meta.name) = true ∧
      pc.suggestions = some (scale_deltas_in_strings
        (suggest_for_symptom ALLOWED (lookupFb fbl meta.name).feels
          (sev_bucket (lookupFb fbl meta.name).severity))
        (bank_factor meta.bank_deg * angle_factor meta.angle_deg))) ∧
    (∀ meta ∈ corners, cornerPass (lookupFb fbl meta.name) = true →
      ∃ pc ∈ plan.corners_used, pc.corner = meta.name) := by
  simp only [compute] at h
  cases hcc : computeCorners fbl corners [] ((suggest_for_temp b c).1) with
  | error e =>
    rw [hcc] at h
    exact absurd h (by simp)
  | ok pa =>
    obtain ⟨pcs, agg⟩ := pa
    rw [hcc] at h
    simp only [Except.ok.injEq] at h
    subst h
    obtain ⟨newpcs, hpcs, hagg, hinfo, hcover⟩ :=
      computeCorners_ok_elim fbl corners [] ((suggest_for_temp b c).1) hcc
    simp only [List.nil_append] at hpcs
    subst hpcs
    exact ⟨hagg, hinfo, hcover⟩


theorem sev_scale_bucket (n : ℕ) :
    1 ≤ sev_scale (sev_bucket n) ∧ sev_scale (sev_bucket n) ≤ 3 := by
  unfold sev_bucket
  split_ifs <;> decide

theorem allowed_get_unique (nm : String) (cat cat2 : Cat)
    (h1 : nm ∈ ALLOWED.get cat) (h2 : nm ∈ ALLOWED.get cat2) : cat2 = cat := by
  cases cat <;> cases cat2 <;> first
    | rfl
    | (simp_all only [ALLOWED, Allowed.get, List.mem_cons, List.not_mem_nil, or_false];
       casesm* _ ∨ _ <;> simp_all)

/-! ## Claim theorems -/

/-- Claim C10: for every bank and angle input (any rationals, including
negative or extreme values) the combined geometry scale factor is one of
the nine products of the bank multipliers `{1.25, 1.0, 0.8}` and the
angle multipliers `{1.25, 1.0, 0.85}`, always lies in the closed interval
`[0.68, 1.5625]`, and is strictly positive. -/
theorem geometry_factor_range (bank_deg angle_deg : ℚ) :
    (bank_factor bank_deg * angle_factor angle_deg) ∈
      [(5/4 : ℚ) * (5/4), (5/4 : ℚ) * 1, (5/4 : ℚ) * (17/20),
       (1 : ℚ) * (5/4), (1 : ℚ) * 1, (1 : ℚ) * (17/20),
       (4/5 : ℚ) * (5/4), (4/5 : ℚ) * 1, (4/5 : ℚ) * (17/20)] ∧
    (0.68 : ℚ) ≤ bank_factor bank_deg * angle_factor angle_deg ∧
    bank_factor bank_deg * angle_factor angle_deg ≤ (1.5625 : ℚ) ∧
    0 < bank_factor bank_deg * angle_factor angle_deg := by
  have hl := factor_lb bank_deg angle_deg
  have hu := factor_ub bank_deg angle_deg
  refine ⟨?_, ?_, ?_, factor_pos bank_deg angle_deg⟩
  · rcases bank_factor_cases bank_deg with h | h | h <;>
      rcases angle_factor_cases angle_deg with h2 | h2 | h2 <;>
      rw [h, h2] <;> simp
  · have he : (0.68 : ℚ) = 17/25 := by norm_num
    rw [he]; exact hl
  · have he : (1.5625 : ℚ) = 25/16 := by norm_num
    rw [he]; exact hu

/-- Claim C5: the geometry scale factor is the product of an independent
bank factor (`bank_deg ≤ 4 → 1.25`, `≤ 12 → 1.0`, `> 12 → 0.8`) and angle
factor (`angle_deg ≥ 120 → 1.25`, `≥ 60 → 1.0`, `< 60 → 0.85`);
in particular `bank_deg = 2` with `angle_deg = 150` gives exactly `1.5625`
and `bank_deg = 20` with `angle_deg = 30` gives exactly `0.68`. -/
theorem geometry_factor_values :
    bank_factor 2 * angle_factor 150 = (1.5625 : ℚ) ∧
    bank_factor 20 * angle_factor 30 = (0.68 : ℚ) ∧
    (∀ b : ℚ, (b ≤ 4 → bank_factor b = 1.25) ∧
      (4 < b → b ≤ 12 → bank_factor b = 1) ∧ (12 < b → bank_factor b = 0.8)) ∧
    (∀ a : ℚ, (120 ≤ a → angle_factor a = 1.25) ∧
      (60 ≤ a → a < 120 → angle_factor a = 1) ∧ (a < 60 → angle_factor a = 0.85)) := by
  refine ⟨by norm_num [bank_factor, angle_factor],
    by norm_num [bank_factor, angle_factor], ?_, ?_⟩
  · intro b
    refine ⟨fun h => ?_, fun h1 h2 => ?_, fun h => ?_⟩ <;>
      unfold bank_factor <;> split_ifs <;> first | linarith | norm_num
  · intro a
    refine ⟨fun h => ?_, fun h1 h2 => ?_, fun h => ?_⟩ <;>
      unfold angle_factor <;> split_ifs <;> first | linarith | norm_num

/-- Witness for C5 at concrete inputs. -/
theorem geometry_factor_values_witness :
    bank_factor 3 = 1.25 ∧ bank_factor 8 = 1 ∧ bank_factor 13 = 0.8 ∧
    angle_factor 150 = 1.25 ∧ angle_factor 90 = 1 ∧ angle_factor 30 = 0.85 :=
  ⟨(geometry_factor_values.2.2.1 3).1 (by norm_num),
   (geometry_factor_values.2.2.1 8).2.1 (by norm_num) (by norm_num),
   (geometry_factor_values.2.2.1 13).2.2 (by norm_num),
   (geometry_factor_values.2.2.2 150).1 (by norm_num),
   (geometry_factor_values.2.2.2 90).2.1 (by norm_num) (by norm_num),
   (geometry_factor_values.2.2.2 30).2.2 (by norm_num)⟩

/-- Claim C4: `suggest_for_temp 85 89` (diff 4, inside the default 5-degree
deadband) yields tier 0 and an empty suggestion block; `suggest_for_temp
85 96` (diff 11) yields tier 2 with the hotter-side block; in general the
tier is `0` when `|current - baseline| ≤ 5`, `1` when `≤ 10`, `2` when
`≤ 20`, else `3`, and tier 0 always produces an empty block. -/
theorem temp_compensation_tiers :
    suggest_for_temp 85 89 = (emptySugg, 4, 0) ∧
    (suggest_for_temp 85 96).2.2 = 2 ∧
    (suggest_for_temp 85 96).1 = ⟨
      [mk_delta "LF_pressure" (-1) " psi", mk_delta "RF_pressure" (-1) " psi",
       mk_delta "LR_pressure" (-1) " psi", mk_delta "RR_pressure" (-1) " psi"],
      [],
      [mk_delta "LF_shock_bump_clicks" 2 " clicks",
       mk_delta "RF_shock_bump_clicks" 2 " clicks",
       mk_delta "LR_shock_bump_clicks" 2 " clicks",
       mk_delta "RR_shock_bump_clicks" 2 " clicks",
       mk_delta "rear_spring_rate" 50 " lb/in"],
      [mk_delta "diff_preload_ftlbs" 10 " ft-lbs"]⟩ ∧
    (∀ b c : ℤ, temp_scale_from_diff (c - b) =
      if |c - b| ≤ 5 then 0 else if |c - b| ≤ 10 then 1
      else if |c - b| ≤ 20 then 2 else 3) ∧
    (∀ b c : ℤ, temp_scale_from_diff (c - b) = 0 →
      (suggest_for_temp b c).1 = emptySugg) := by
  refine ⟨rfl, rfl, ?_, ?_, ?_⟩
  · have h : (suggest_for_temp 85 96).1 = ⟨
      [mk_delta "LF_pressure" (-psi_step * ((2:ℕ) : ℚ)) " psi",
       mk_delta "RF_pressure" (-psi_step * ((2:ℕ) : ℚ)) " psi",
       mk_delta "LR_pressure" (-psi_step * ((2:ℕ) : ℚ)) " psi",
       mk_delta "RR_pressure" (-psi_step * ((2:ℕ) : ℚ)) " psi"],
      [],
      [mk_delta "LF_shock_bump_clicks" (shock_step * ((2:ℕ) : ℚ)) " clicks",
       mk_delta "RF_shock_bump_clicks" (shock_step * ((2:ℕ) : ℚ)) " clicks",
       mk_delta "LR_shock_bump_clicks" (shock_step * ((2:ℕ) : ℚ)) " clicks",
       mk_delta "RR_shock_bump_clicks" (shock_step * ((2:ℕ) : ℚ)) " clicks",
       mk_delta "rear_spring_rate" (spring_step * ((2:ℕ) : ℚ)) " lb/in"],
      [mk_delta "diff_preload_ftlbs" (diff_step * ((2:ℕ) : ℚ)) " ft-lbs"]⟩ := rfl
    rw [h]
    norm_num [mk_delta, psi_step, shock_step, spring_step, diff_step]
  · intro b c
    unfold temp_scale_from_diff
    simp only [Int.abs_eq_natAbs]
    split_ifs <;> omega
  · intro b c h
    unfold suggest_for_temp
    rw [if_pos h]

/-- Witness for C4: the general tier formula and the deadband case applied
at concrete temperatures. -/
theorem temp_compensation_tiers_witness :
    temp_scale_from_diff (100 - 85) =
      (if |(100 : ℤ) - 85| ≤ 5 then 0 else if |(100 : ℤ) - 85| ≤ 10 then 1
       else if |(100 : ℤ) - 85| ≤ 20 then 2 else 3) ∧
    (suggest_for_temp 70 72).1 = emptySugg :=
  ⟨temp_compensation_tiers.2.2.2.1 85 100,
   temp_compensation_tiers.2.2.2.2 70 72 (by decide)⟩

/-- Claim C3: a corner contributes to the plan (appears in the
`corners_used` findings, and hence may contribute suggestion lines) iff
its symptom differs from the `"No issue / skip"` sentinel and its
severity is at least 1; for contributing severities the tier map is
total and fixed (1–3 slight, 4–7 moderate, 8–10 severe); severity 0
excludes the corner regardless of symptom, and the sentinel excludes it
even with positive severity. -/
theorem skip_gate_and_tiers :
    (∀ n : ℕ, 1 ≤ n → n ≤ 3 → sev_bucket n = "slight") ∧
    (∀ n : ℕ, 4 ≤ n → n ≤ 7 → sev_bucket n = "moderate") ∧
    (∀ n : ℕ, 8 ≤ n → n ≤ 10 → sev_bucket n = "severe") ∧
    (∀ (b c : ℤ) (corners : List CornerMeta) (fbl : List (String × Feedback))
      (plan : Plan),
      compute b c corners fbl = Except.ok plan →
      ∀ meta ∈ corners,
        ((∃ pc ∈ plan.corners_used, pc.corner = meta.name) ↔
          ((lookupFb fbl meta.name).feels ≠ "No issue / skip" ∧
           1 ≤ (lookupFb fbl meta.name).severity))) := by
  refine ⟨?_, ?_, ?_, ?_⟩
  · intro n h1 h2
    unfold sev_bucket
    rw [if_pos h2]
  · intro n h1 h2
    unfold sev_bucket
    rw [if_neg (by omega), if_pos h2]
  · intro n h1 h2
    unfold sev_bucket
    rw [if_neg (by omega), if_neg (by omega)]
  · intro b c corners fbl plan h meta hmeta
    obtain ⟨-, hinfo, hcover⟩ := compute_ok_elim b c corners fbl h
    constructor
    · rintro ⟨pc, hpc, hname⟩
      obtain ⟨m, -, hcorner, hpass, -⟩ := hinfo pc hpc
      rw [hname] at hcorner
      rw [← hcorner] at hpass
      simpa [cornerPass, Nat.one_le_iff_ne_zero, Nat.pos_iff_ne_zero] using hpass
    · rintro ⟨hne, hsev⟩
      refine hcover meta hmeta ?_
      simp only [cornerPass, Bool.and_eq_true, bne_iff_ne, ne_eq, decide_eq_true_eq]
      exact ⟨hne, by omega⟩

/-- Witness for C3: the tier map at 2, 5, 9 and the gate at the example
run with corner `"T1"`, symptom `"Loose on entry"`, severity 8. -/
theorem skip_gate_and_tiers_witness :
    sev_bucket 2 = "slight" ∧ sev_bucket 5 = "moderate" ∧ sev_bucket 9 = "severe" ∧
    ((∃ pc ∈ planExL.corners_used, pc.corner = "T1") ↔
      ((lookupFb [("T1", ⟨"Loose on entry", 8, ""⟩)] "T1").feels ≠ "No issue / skip" ∧
       1 ≤ (lookupFb [("T1", ⟨"Loose on entry", 8, ""⟩)] "T1").severity)) :=
  ⟨skip_gate_and_tiers.1 2 (by decide) (by decide),
   skip_gate_and_tiers.2.1 5 (by decide) (by decide),
   skip_gate_and_tiers.2.2.1 9 (by decide) (by decide),
   skip_gate_and_tiers.2.2.2 85 96 [⟨"T1", "L", 2, 150⟩]
     [("T1", ⟨"Loose on entry", 8, ""⟩)] planExL planExL_ok
     ⟨"T1", "L", 2, 150⟩ (List.mem_singleton_self _)⟩

/-- Claim C6: in every successful run the temperature block is computed
exactly once from the two temperatures alone and its lines sit at the
front of every category of the plan, verbatim — never multiplied by a
corner's geometry factor and never mirrored — followed by the per-corner
lines in corner order. -/
theorem temp_block_global_and_first :
    ∀ (b c : ℤ) (corners : List CornerMeta) (fbl : List (String × Feedback))
      (plan : Plan),
      compute b c corners fbl = Except.ok plan →
      ∀ cat, plan.recommendations.get cat =
        ((suggest_for_temp b c).1).get cat ++
        (plan.corners_used.map fun pc =>
          ((pc.suggestions.getD emptySugg).get cat)).flatten :=
  fun b c corners fbl plan h => (compute_ok_elim b c corners fbl h).1

/-- Witness for C6 at the example run. -/
theorem temp_block_global_and_first_witness :
    planExL.recommendations.get Cat.tires =
      ((suggest_for_temp 85 96).1).get Cat.tires ++
      (planExL.corners_used.map fun pc =>
        ((pc.suggestions.getD emptySugg).get Cat.tires)).flatten :=
  temp_block_global_and_first 85 96 [⟨"T1", "L", 2, 150⟩]
    [("T1", ⟨"Loose on entry", 8, ""⟩)] planExL planExL_ok Cat.tires

/-- Claim C7: every suggestion line in a successful plan — temperature
lines and geometry-scaled corner lines alike — carries a delta that is an
integer multiple of its parameter family's increment (exactly, in the
rational model, hence within any floating tolerance), and the increments
are pressure 0.5 psi, shock clicks 1, spring rate 25 lb/in, crossweight
0.1 %, trackbar 0.25 in, ride height 0.05 in, diff preload 5 ft-lbs. -/
theorem snapping_invariant :
    (∀ (b c : ℤ) (corners : List CornerMeta) (fbl : List (String × Feedback))
      (plan : Plan),
      compute b c corners fbl = Except.ok plan →
      ∀ cat, ∀ ln ∈ plan.recommendations.get cat,
        ∃ k : ℤ, ln.delta = (k : ℚ) * step_for_param ln.name) ∧
    step_for_param "LF_pressure" = (0.5 : ℚ) ∧
    step_for_param "LF_shock_rebound_clicks" = 1 ∧
    step_for_param "front_spring_rate" = 25 ∧
    step_for_param "crossweight_percent" = (0.1 : ℚ) ∧
    step_for_param "rear_trackbar_in" = (0.25 : ℚ) ∧
    step_for_param "front_ride_height_in" = (0.05 : ℚ) ∧
    step_for_param "diff_preload_ftlbs" = 5 := by
  refine ⟨?_, by norm_num [step_LF_pressure, psi_step],
    by norm_num [step_LF_rebound, shock_step],
    by norm_num [step_front_spring, spring_step],
    by norm_num [step_xwt, xwt_step],
    by norm_num [step_trackbar, trackbar_step],
    by norm_num [step_front_ride, ride_step],
    by norm_num [step_diff, diff_step]⟩
  intro b c corners fbl plan h cat ln hln
  obtain ⟨hagg, hinfo, -⟩ := compute_ok_elim b c corners fbl h
  rw [hagg cat] at hln
  rcases List.mem_append.1 hln with hln | hln
  · obtain ⟨-, -, -, hform⟩ := temp_lines b c cat ln hln
    rcases hform with h1 | h1
    · exact ⟨(temp_scale_from_diff (c - b) : ℤ), by rw [h1]; push_cast; ring⟩
    · exact ⟨-(temp_scale_from_diff (c - b) : ℤ), by rw [h1]; push_cast; ring⟩
  · simp only [List.mem_flatten, List.mem_map] at hln
    obtain ⟨l, ⟨pc, hpc, rfl⟩, hlnl⟩ := hln
    obtain ⟨meta, -, -, -, hsugg⟩ := hinfo pc hpc
    rw [hsugg] at hlnl
    simp only [Option.getD_some, get_scale_deltas, List.mem_map] at hlnl
    obtain ⟨ln0, -, rfl⟩ := hlnl
    exact ⟨pyRound (ln0.delta *
      (bank_factor meta.bank_deg * angle_factor meta.angle_deg) /
      step_for_param ln0.name), rfl⟩

/-- Witness for C7: the first tires line of the example plan. -/
theorem snapping_invariant_witness :
    ∃ k : ℤ,
      ((planExL.recommendations.get Cat.tires).get ⟨0, by decide⟩).delta =
        (k : ℚ) * step_for_param
          ((planExL.recommendations.get Cat.tires).get ⟨0, by decide⟩).name :=
  snapping_invariant.1 85 96 [⟨"T1", "L", 2, 150⟩]
    [("T1", ⟨"Loose on entry", 8, ""⟩)] planExL planExL_ok Cat.tires _
    (List.get_mem _ _ _)

/-- Claim C8: no suggestion line with delta 0 ever appears in a successful
plan, for any combination of track geometry, corner feedback and
temperatures.  (In fact no raw rule delta can even snap to zero: the
smallest scaled magnitude is `1 × 0.68` step units, which rounds to one
step.) -/
theorem no_zero_delta :
    ∀ (b c : ℤ) (corners : List CornerMeta) (fbl : List (String × Feedback))
      (plan : Plan),
      compute b c corners fbl = Except.ok plan →
      ∀ cat, ∀ ln ∈ plan.recommendations.get cat, ln.delta ≠ 0 := by
  intro b c corners fbl plan h cat ln hln
  obtain ⟨hagg, hinfo, -⟩ := compute_ok_elim b c corners fbl h
  rw [hagg cat] at hln
  rcases List.mem_append.1 hln with hln | hln
  · obtain ⟨-, hstep, hsc, hform⟩ := temp_lines b c cat ln hln
    have hs : (1 : ℚ) ≤ (temp_scale_from_diff (c - b) : ℚ) := by exact_mod_cast hsc
    have hpos : 0 < (temp_scale_from_diff (c - b) : ℚ) * step_for_param ln.name :=
      mul_pos (by linarith) hstep
    rcases hform with h1 | h1
    · rw [h1]; exact ne_of_gt hpos
    · rw [h1]; exact ne_of_lt (by linarith)
  · simp only [List.mem_flatten, List.mem_map] at hln
    obtain ⟨l, ⟨pc, hpc, rfl⟩, hlnl⟩ := hln
    obtain ⟨meta, -, -, -, hsugg⟩ := hinfo pc hpc
    rw [hsugg] at hlnl
    simp only [Option.getD_some, get_scale_deltas, List.mem_map] at hlnl
    obtain ⟨ln0, hln0, rfl⟩ := hlnl
    obtain ⟨-, hstep, hform⟩ := suggest_lines ALLOWED
      (lookupFb fbl meta.name).feels (sev_bucket (lookupFb fbl meta.name).severity)
      cat ln0 hln0
    have hstep0 : step_for_param ln0.name ≠ 0 := ne_of_gt hstep
    have hs1 : 1 ≤ sev_scale (sev_bucket (lookupFb fbl meta.name).severity) :=
      (sev_scale_bucket _).1
    have hs : (1 : ℚ) ≤
        (sev_scale (sev_bucket (lookupFb fbl meta.name).severity) : ℚ) := by
      exact_mod_cast hs1
    have hfac := factor_lb meta.bank_deg meta.angle_deg
    have hfacpos := factor_pos meta.bank_deg meta.angle_deg
    set s : ℚ := (sev_scale (sev_bucket (lookupFb fbl meta.name).severity) : ℚ) with hsdef
    set fac : ℚ := bank_factor meta.bank_deg * angle_factor meta.angle_deg with hfdef
    have hsf : 1/2 < s * fac := by nlinarith
    show (pyRound (ln0.delta * fac / step_for_param ln0.name) : ℚ) *
      step_for_param ln0.name ≠ 0
    rcases hform with h1 | h1
    · have harg : ln0.delta * fac / step_for_param ln0.name = s * fac := by
        rw [h1]; field_simp; ring
      rw [harg]
      have hr : 1 ≤ pyRound (s * fac) := pyRound_ge_one hsf
      have hrq : (1 : ℚ) ≤ (pyRound (s * fac) : ℚ) := by exact_mod_cast hr
      exact ne_of_gt (mul_pos (by linarith) hstep)
    · have harg : ln0.delta * fac / step_for_param ln0.name = -(s * fac) := by
        rw [h1]; field_simp; ring
      rw [harg]
      have hr : pyRound (-(s * fac)) ≤ -1 := pyRound_le_neg_one (by linarith)
      have hrq : (pyRound (-(s * fac)) : ℚ) ≤ -1 := by exact_mod_cast hr
      exact ne_of_lt (mul_neg_of_neg_of_pos (by linarith) hstep)

/-- Witness for C8: the first tires line of the example plan has nonzero
delta. -/
theorem no_zero_delta_witness :
    ((planExL.recommendations.get Cat.tires).get ⟨0, by decide⟩).delta ≠ 0 :=
  no_zero_delta 85 96 [⟨"T1", "L", 2, 150⟩]
    [("T1", ⟨"Loose on entry", 8, ""⟩)] planExL planExL_ok Cat.tires _
    (List.get_mem _ _ _)

/-- Claim C9: every suggestion line of a successful plan names a
parameter present in the allowed-parameter registry under exactly one
category (the category it is filed under); rule entries for names missing
from the registry are dropped by the membership guards and contribute
nothing. -/
theorem whitelist_invariant :
    ∀ (b c : ℤ) (corners : List CornerMeta) (fbl : List (String × Feedback))
      (plan : Plan),
      compute b c corners fbl = Except.ok plan →
      ∀ cat, ∀ ln ∈ plan.recommendations.get cat,
        ln.name ∈ ALLOWED.get cat ∧
        ∀ cat2, ln.name ∈ ALLOWED.get cat2 → cat2 = cat := by
  intro b c corners fbl plan h cat ln hln
  obtain ⟨hagg, hinfo, -⟩ := compute_ok_elim b c corners fbl h
  rw [hagg cat] at hln
  have hmem : ln.name ∈ ALLOWED.get cat := by
    rcases List.mem_append.1 hln with hln | hln
    · exact (temp_lines b c cat ln hln).1
    · simp only [List.mem_flatten, List.mem_map] at hln
      obtain ⟨l, ⟨pc, hpc, rfl⟩, hlnl⟩ := hln
      obtain ⟨meta, -, -, -, hsugg⟩ := hinfo pc hpc
      rw [hsugg] at hlnl
      simp only [Option.getD_some, get_scale_deltas, List.mem_map] at hlnl
      obtain ⟨ln0, hln0, rfl⟩ := hlnl
      exact (suggest_lines ALLOWED (lookupFb fbl meta.name).feels
        (sev_bucket (lookupFb fbl meta.name).severity) cat ln0 hln0).1
  exact ⟨hmem, fun cat2 h2 => allowed_get_unique ln.name cat cat2 hmem h2⟩

/-- Witness for C9: the first tires line of the example plan is
whitelisted under exactly the tires category. -/
theorem whitelist_invariant_witness :
    ((planExL.recommendations.get Cat.tires).get ⟨0, by decide⟩).name ∈
      ALLOWED.get Cat.tires ∧
    ∀ cat2, ((planExL.recommendations.get Cat.tires).get ⟨0, by decide⟩).name ∈
      ALLOWED.get cat2 → cat2 = Cat.tires :=
  whitelist_invariant 85 96 [⟨"T1", "L", 2, 150⟩]
    [("T1", ⟨"Loose on entry", 8, ""⟩)] planExL planExL_ok Cat.tires _
    (List.get_mem _ _ _)

/-- Claim C1 (code bug): the source's `mirror_sides` never mirrors.  Its
dict-comprehension `return` is unreachable (mis-indented inside `swap_one`
after `return txt`), so `mirror_sides` returns `None` for every input;
the intended inner `swap_one` does swap `LF_` to `RF_` (and `LR_` to
`RR_`, never crossing axles), but on a right-hand corner with a
contributing symptom the compute run dies with a `TypeError` instead of
producing a plan with mirrored lines. -/
theorem mirror_sides_returns_none_and_compute_crashes :
    (∀ d : SuggDict, mirror_sides d = none) ∧
    swap_one "LF_pressure: -2.5 psi" = "RF_pressure: -2.5 psi" ∧
    swap_one "LR_pressure: -1 psi" = "RR_pressure: -1 psi" ∧
    compute 85 85 [⟨"T1", "R", 2, 150⟩] [("T1", ⟨"Loose on entry", 8, ""⟩)]
      = Except.error mirrorCrashMsg :=
  ⟨fun _ => rfl, rfl, rfl, rfl⟩

/-- Claim C2 (code bug): a compute run over a track that contains a
right-hand corner with a contributing symptom raises (modelled as
`Except.error`) instead of completing with the remaining valid lines:
here the left-hand corner T1 and the temperature block produce valid
lines, yet the run still dies at the right-hand corner T2. -/
theorem compute_raises_despite_valid_lines :
    compute 85 96 [⟨"T1", "L", 7, 90⟩, ⟨"T2", "R", 7, 90⟩]
      [("T1", ⟨"Tight on exit", 5, ""⟩), ("T2", ⟨"Traction wheelspin", 2, ""⟩)]
      = Except.error mirrorCrashMsg :=
  rfl

end SetupCoach
